import Mathlib

/-!
Verification of the privilege-scanner and pipeline-generator scripts of the
argo-apps repository (scripts/ci/check_privileges.py and
scripts/ci/generate_pipeline.py).

The scripts operate on YAML documents parsed by PyYAML into Python values
(None, bool, int, str, list, dict).  We embed those values as the inductive
type `Yaml` and translate each function of interest into a pure Lean
function.  Floating-point YAML scalars never occur in the behaviour the
scripts inspect and are omitted from the model.
-/

set_option autoImplicit false

/-- A parsed YAML value as produced by yaml.safe_load: Python None, bool,
int, str, list or dict (string keys, in insertion order, keys unique). -/
inductive Yaml where
  | null : Yaml
  | bool : Bool → Yaml
  | int : Int → Yaml
  | str : String → Yaml
  | list : List Yaml → Yaml
  | dict : List (String × Yaml) → Yaml
deriving Repr

namespace Yaml

/-- Dictionary lookup: `d[k]` when `d` is a dict holding `k`, else nothing.
(Python raises on attribute access of non-dicts; the scripts only reach
these lookups on dict-shaped values, and on other values every analysed
outcome is unchanged by returning nothing.) -/
def find : Yaml → String → Option Yaml
  | .dict kvs, k => kvs.lookup k
  | _, _ => none

/-- Python `d.get(k)`: the value if present, else `None`.  (A key stored
with an explicit `null` value is indistinguishable from an absent key,
exactly as in Python.) -/
def pyGet (v : Yaml) (k : String) : Yaml :=
  (v.find k).getD .null

/-- Python `d.get(k, default)`. -/
def getD (v : Yaml) (k : String) (d : Yaml) : Yaml :=
  (v.find k).getD d

/-- Python `k in d`. -/
def hasKey (v : Yaml) (k : String) : Bool :=
  (v.find k).isSome

/-- Python truthiness of a parsed YAML value: `bool(v)`. -/
def truthy : Yaml → Bool
  | .null => false
  | .bool b => b
  | .int n => n != 0
  | .str s => s != ""
  | .list xs => !xs.isEmpty
  | .dict kvs => !kvs.isEmpty

/-- Python `v == s` for a string literal `s`: only a str value can compare
equal to a str. -/
def eqStr : Yaml → String → Bool
  | .str t, s => t == s
  | _, _ => false

/-- The elements iterated by a Python `for` loop over the value.  Iterating
a non-list here yields nothing: in the scripts the iterated values are
lists (iterating a str would yield single characters, none of which match
any multi-character capability name, so the analysed outcome is the same). -/
def items : Yaml → List Yaml
  | .list xs => xs
  | _ => []

/-- Python `v is False`: true exactly for the boolean False object. -/
def isFalse : Yaml → Bool
  | .bool false => true
  | _ => false

end Yaml

/-- Python `str(v)` as used in f-strings for names and capability values.
The scripts only format scalar values (resource and container names,
capability strings); composite reprs are abbreviated since no analysed
behaviour depends on them. -/
def pyStr : Yaml → String
  | .null => "None"
  | .bool true => "True"
  | .bool false => "False"
  | .int n => toString n
  | .str s => s
  | .list _ => "[list]"
  | .dict _ => "[dict]"

/-- The SecurityFinding dataclass of check_privileges.py. -/
structure SecurityFinding where
  severity : String
  check : String
  manifest_dir : String
  resource_kind : String
  resource_name : String
  «namespace» : String
  details : String
  line_context : String := ""
deriving Repr, DecidableEq

/-- PrivilegeChecker.DANGEROUS_CAPABILITIES. -/
def DANGEROUS_CAPABILITIES : List String :=
  ["SYS_ADMIN", "NET_ADMIN", "SYS_MODULE", "SYS_RAWIO", "SYS_PTRACE", "DAC_OVERRIDE"]

/-- The Pod-like kinds monitored by check_resource. -/
def MONITORED_KINDS : List String :=
  ["Pod", "Deployment", "StatefulSet", "DaemonSet", "Job", "CronJob", "ReplicaSet"]

/-- PrivilegeChecker.SCAN_DIRECTORIES (same constant in generate_pipeline.py). -/
def SCAN_DIRECTORIES : List String := ["apps", "infrastructure", "argocd"]

/-- Whether check_resource monitors the resource:
`kind in ["Pod","Deployment",...]` with `kind = resource.get("kind", "Unknown")`. -/
def is_monitored (resource : Yaml) : Bool :=
  MONITORED_KINDS.any (fun k => (resource.getD "kind" (.str "Unknown")).eqStr k)

/-- The pod template spec selected by check_resource: the resource spec for a
Pod, `spec.template.spec` (each level defaulted to an empty dict) otherwise. -/
def pod_spec_of (resource : Yaml) : Yaml :=
  let spec := resource.getD "spec" (.dict [])
  if (resource.getD "kind" (.str "Unknown")).eqStr "Pod" then spec
  else (spec.getD "template" (.dict [])).getD "spec" (.dict [])

/-- Python `pod_spec.get("containers", []) + pod_spec.get("initContainers", [])`. -/
def containers_of (resource : Yaml) : List Yaml :=
  ((pod_spec_of resource).getD "containers" (.list [])).items
    ++ ((pod_spec_of resource).getD "initContainers" (.list [])).items

/-- Python `pod_spec.get("volumes", [])`. -/
def volumes_of (resource : Yaml) : List Yaml :=
  ((pod_spec_of resource).getD "volumes" (.list [])).items

/-- The run_as_non_root value of the container loop: the container
securityContext's value when `container_run_as_non_root is not None`, the
pod-level value otherwise (`d.get` turns both an absent key and an explicit
null into `None`). -/
def run_as_non_root_of (pod_security_context security_context : Yaml) : Yaml :=
  match security_context.pyGet "runAsNonRoot" with
  | .null => pod_security_context.pyGet "runAsNonRoot"
  | v => v

/-- Python `security_context.get("capabilities", dict()).get("add", [])` for a container. -/
def added_caps_of (container : Yaml) : List Yaml :=
  (((container.getD "securityContext" (.dict [])).getD "capabilities"
      (.dict [])).getD "add" (.list [])).items

/-- The per-container body of check_resource's container loop: the
privileged, allowPrivilegeEscalation, runAsNonRoot and capabilities checks,
in source order. -/
def container_findings (kind name ns manifest_dir : String)
    (pod_security_context container : Yaml) : List SecurityFinding :=
  let container_name := pyStr (container.getD "name" (.str "unknown"))
  let security_context := container.getD "securityContext" (.dict [])
  let privileged_fs : List SecurityFinding :=
    if (security_context.pyGet "privileged").truthy then
      [{ severity := "high", check := "privileged", manifest_dir,
         resource_kind := kind, resource_name := name ++ "/" ++ container_name,
         «namespace» := ns, details := "Container runs in privileged mode" }]
    else []
  -- if security_context.get("allowPrivilegeEscalation", True):
  --     if "allowPrivilegeEscalation" in security_context: append(...)
  let ape_fs : List SecurityFinding :=
    if (security_context.getD "allowPrivilegeEscalation" (.bool true)).truthy then
      if security_context.hasKey "allowPrivilegeEscalation" then
        [{ severity := "medium", check := "allowPrivilegeEscalation", manifest_dir,
           resource_kind := kind, resource_name := name ++ "/" ++ container_name,
           «namespace» := ns, details := "Container allows privilege escalation" }]
      else []
    else []
  -- run_as_non_root = container value if it is not None else pod-level value;
  -- flagged only when `run_as_non_root is False`.
  let ranr_fs : List SecurityFinding :=
    if (run_as_non_root_of pod_security_context security_context).isFalse then
      [{ severity := "medium", check := "runAsRoot", manifest_dir,
         resource_kind := kind, resource_name := name ++ "/" ++ container_name,
         «namespace» := ns, details := "Container explicitly allows running as root" }]
    else []
  let cap_fs : List SecurityFinding :=
    (added_caps_of container).filterMap (fun cap =>
      if DANGEROUS_CAPABILITIES.any (fun c => cap.eqStr c) then
        some { severity := "high", check := "dangerousCapability", manifest_dir,
               resource_kind := kind, resource_name := name ++ "/" ++ container_name,
               «namespace» := ns,
               details := "Container adds dangerous capability: " ++ pyStr cap }
      else none)
  privileged_fs ++ ape_fs ++ ranr_fs ++ cap_fs

/-- PrivilegeChecker.check_resource, as the list of findings it appends to
self.findings for one resource, in append order. -/
def check_resource (resource : Yaml) (manifest_dir : String) : List SecurityFinding :=
  let kind := resource.getD "kind" (.str "Unknown")
  let metadata := resource.getD "metadata" (.dict [])
  let name := pyStr (metadata.getD "name" (.str "unknown"))
  let ns := pyStr (metadata.getD "namespace" (.str "default"))
  if !is_monitored resource then []
  else
    let kindS := pyStr kind
    let pod_spec := pod_spec_of resource
    let pod_security_context := pod_spec.getD "securityContext" (.dict [])
    let hostNetwork_fs : List SecurityFinding :=
      if (pod_spec.pyGet "hostNetwork").truthy then
        [{ severity := "high", check := "hostNetwork", manifest_dir,
           resource_kind := kindS, resource_name := name, «namespace» := ns,
           details := "Pod uses host network namespace" }]
      else []
    let hostPID_fs : List SecurityFinding :=
      if (pod_spec.pyGet "hostPID").truthy then
        [{ severity := "high", check := "hostPID", manifest_dir,
           resource_kind := kindS, resource_name := name, «namespace» := ns,
           details := "Pod uses host PID namespace" }]
      else []
    let hostIPC_fs : List SecurityFinding :=
      if (pod_spec.pyGet "hostIPC").truthy then
        [{ severity := "medium", check := "hostIPC", manifest_dir,
           resource_kind := kindS, resource_name := name, «namespace» := ns,
           details := "Pod uses host IPC namespace" }]
      else []
    let container_fs : List SecurityFinding :=
      (containers_of resource).flatMap
        (container_findings kindS name ns manifest_dir pod_security_context)
    let volume_fs : List SecurityFinding :=
      (volumes_of resource).filterMap (fun volume =>
        if volume.hasKey "hostPath" then
          some { severity := "high", check := "hostPath", manifest_dir,
                 resource_kind := kindS, resource_name := name, «namespace» := ns,
                 details := "Pod mounts host path: "
                   ++ pyStr ((volume.pyGet "hostPath").getD "path" (.str "unknown")) }
        else none)
    hostNetwork_fs ++ hostPID_fs ++ hostIPC_fs ++ container_fs ++ volume_fs

/-- One step of the document stream that `yaml.safe_load_all` produces while
PrivilegeChecker.parse_manifests iterates it: either the next successfully
parsed document, or the point at which the lazy parser raises a YAMLError.
Events after the first parseError are unreachable (the generator is dead
once it raises) and are ignored by the model. -/
inductive YamlDoc where
  | doc : Yaml → YamlDoc
  | parseError : YamlDoc
deriving Repr

/-- PrivilegeChecker.parse_manifests.  `yaml.safe_load_all` yields documents
lazily, one per loop iteration; the for-loop appends each truthy dict
document to `resources`.  When the generator raises a YAMLError the
surrounding try/except catches it, logs a warning, and the already
accumulated `resources` list is returned. -/
def parse_manifests : List YamlDoc → List Yaml
  | [] => []
  | YamlDoc.parseError :: _ => []
  | YamlDoc.doc v :: rest =>
    (if v.truthy && (match v with | .dict _ => true | _ => false) then [v] else [])
      ++ parse_manifests rest

/-- The exit-code computation of check_privileges.main after reporting:
returns 1 when --fail-on-high was given and a high-severity finding exists,
and 0 otherwise (findings alone never fail the run). -/
def main_exit_code (fail_on_high : Bool) (findings : List SecurityFinding) : Nat :=
  let high_findings := findings.countP (fun f => f.severity == "high")
  if fail_on_high && high_findings > 0 then 1
  else 0

/-- The aggregate JSON document written by PrivilegeChecker.save_json_report. -/
structure JsonReport where
  total_findings : Nat
  high_severity : Nat
  medium_severity : Nat
  low_severity : Nat
  findings : List SecurityFinding
deriving Repr, DecidableEq

/-- PrivilegeChecker.save_json_report, as the report value it serializes. -/
def save_json_report (findings : List SecurityFinding) : JsonReport :=
  { total_findings := findings.length
    high_severity := (findings.filter (fun f => f.severity == "high")).length
    medium_severity := (findings.filter (fun f => f.severity == "medium")).length
    low_severity := (findings.filter (fun f => f.severity == "low")).length
    findings := findings }

/-!
The directory mapper.  A repository-relative path is its list of components
(`pathlib.PurePath.parts` of a plain relative path, e.g.
`Path("apps/x/d.yaml").parts == ("apps", "x", "d.yaml")`); the current
directory `Path(".")` has the empty component list.  The filesystem enters
only through the set of directories that contain a `kustomization.yaml`
marker file, modelled as the list `fs`.
-/

/-- A repository-relative path as its component list. -/
abbrev RepoPath := List String

/-- Python `pathlib.Path.parent`: the path without its last component
(`Path(".").parent == Path(".")`, matching `List.dropLast [] = []`). -/
def parentDir (p : RepoPath) : RepoPath := p.dropLast

/-- Python `pathlib.Path.parents`: the proper prefixes of the path, nearest first,
ending with the current directory `Path(".")` (the empty component list).
`Path("a/b/c").parents == [a/b, a, .]`. -/
def pathParents (p : RepoPath) : List RepoPath :=
  ((List.range p.length).map (fun k => p.take k)).reverse

/-- The ancestors examined by both walk loops: every parent from the
immediate parent toward the root, stopping when the loop reaches
`Path(".")` (generate_pipeline breaks at it; check_privileges' while
condition excludes it). -/
def properAncestors (p : RepoPath) : List RepoPath :=
  (pathParents p).takeWhile (fun a => !a.isEmpty)

/-- The ancestor walk shared by generate_pipeline.get_affected_manifests and
PrivilegeChecker.get_affected_kustomizations: the first (nearest) examined
ancestor whose directory contains kustomization.yaml. -/
def findKustomizationDir (fs : List RepoPath) (path : RepoPath) : Option RepoPath :=
  (properAncestors path).find? (fun a => decide (a ∈ fs))

/-- Python `str(path)` for a nonempty relative path. -/
def pathToString (p : RepoPath) : String := String.intercalate "/" p

/-- The per-directory value of get_affected_manifests' mapping:
`{"has_kustomization": bool, "files": set of path strings}`. -/
structure ManifestEntry where
  has_kustomization : Bool
  files : List String
deriving Repr, DecidableEq

/-- Set insertion for the `files` set, modelled as a duplicate-free list. -/
def insertFile (s : List String) (x : String) : List String :=
  if s.contains x then s else s ++ [x]

/-- Python `affected.setdefault(dir, ...)` followed by the or-update of the flag
and the set-add of the file, on the mapping as an association list. -/
def updateAffected (m : List (RepoPath × ManifestEntry)) (dir : RepoPath)
    (has_k : Bool) (file : String) : List (RepoPath × ManifestEntry) :=
  match m with
  | [] => [(dir, { has_kustomization := has_k, files := [file] })]
  | (d, e) :: rest =>
    if d = dir then
      (d, { has_kustomization := e.has_kustomization || has_k,
            files := insertFile e.files file }) :: rest
    else (d, e) :: updateAffected rest dir has_k file

/-- The per-file body of get_affected_manifests' loop: skip paths whose
first component is outside SCAN_DIRECTORIES; otherwise file under the
nearest marker ancestor (kustomize-managed) or, when no examined ancestor
has the marker, under the immediate parent as a raw entry.  (The source's
`path.parent if path.parent != Path(".") else Path(".")` is the identity on
`path.parent` and is modelled as `parentDir`.) -/
def affectedStep (fs : List RepoPath) (m : List (RepoPath × ManifestEntry))
    (path : RepoPath) : List (RepoPath × ManifestEntry) :=
  match path with
  | [] => m
  | head :: _ =>
    if !decide (head ∈ SCAN_DIRECTORIES) then m
    else
      match findKustomizationDir fs path with
      | some kdir => updateAffected m kdir true (pathToString path)
      | none => updateAffected m (parentDir path) false (pathToString path)

/-- generate_pipeline.get_affected_manifests: fold the per-file step over
the changed files, starting from the empty mapping. -/
def get_affected_manifests (fs : List RepoPath) (changed_files : List RepoPath) :
    List (RepoPath × ManifestEntry) :=
  changed_files.foldl (affectedStep fs) []

/-- PrivilegeChecker.get_affected_kustomizations: the set (duplicate-free
list) of nearest marker ancestors of the qualifying changed files.  A path
qualifies when it is relative to one of the SCAN_DIRECTORIES entries that
exists on disk (`dirExists` models `Path(d).exists()`); there is no raw
fallback here. -/
def get_affected_kustomizations (dirExists : String → Bool) (fs : List RepoPath)
    (changed_files : List RepoPath) : List RepoPath :=
  changed_files.foldl (fun acc path =>
    match path with
    | [] => acc
    | head :: _ =>
      if !(SCAN_DIRECTORIES.filter dirExists).any (fun d => head == d) then acc
      else
        match findKustomizationDir fs path with
        | some kdir => if acc.contains kdir then acc else acc ++ [kdir]
        | none => acc) []

/-- Modelled from the spec (claim C4's reference reading): the effective
runAsNonRoot value — "the container securityContext's runAsNonRoot when
that key is set to a non-null value, otherwise the pod-level
securityContext's runAsNonRoot". -/
def effectiveRunAsNonRoot (pod_security_context security_context : Yaml) : Yaml :=
  match security_context.find "runAsNonRoot" with
  | some Yaml.null => pod_security_context.pyGet "runAsNonRoot"
  | some v => v
  | none => pod_security_context.pyGet "runAsNonRoot"

/-- A Pod whose hostNetwork value is the truthy string "false" and whose
hostPID value is the falsy number 0: the concrete input of the C10 witness. -/
def truthyFlagsPod : Yaml := .dict [("kind", .str "Pod"),
  ("spec", .dict [("hostNetwork", .str "false"), ("hostPID", .int 0)])]

/-- A Pod whose single container carries allowPrivilegeEscalation with the
string value "false" — truthy, and not the boolean true: the concrete input
of the C2 counterexample. -/
def apeStringPod : Yaml := .dict [("kind", .str "Pod"),
  ("metadata", .dict [("name", .str "p")]),
  ("spec", .dict [("containers", .list [.dict [("name", .str "c"),
    ("securityContext", .dict [("allowPrivilegeEscalation", .str "false")])]])])]

/-- A Deployment with one container explicitly allowing privilege
escalation, one without the key, and one setting it to false: the concrete
input of the C2 witness. -/
def apeDeployment : Yaml := .dict [("kind", .str "Deployment"),
  ("spec", .dict [("template", .dict [("spec", .dict [("containers", .list [
    .dict [("name", .str "a"),
      ("securityContext", .dict [("allowPrivilegeEscalation", .bool true)])],
    .dict [("name", .str "b")],
    .dict [("name", .str "c"),
      ("securityContext", .dict [("allowPrivilegeEscalation", .bool false)])]])])])])]

/-- A Pod whose single container adds the capabilities SYS_ADMIN and
NET_ADMIN and has no other risk factor: the concrete input of the C3
witness. -/
def capPod : Yaml := .dict [("kind", .str "Pod"),
  ("metadata", .dict [("name", .str "cap-pod")]),
  ("spec", .dict [("containers", .list [.dict [("name", .str "c"),
    ("securityContext", .dict [("capabilities", .dict [("add",
      .list [.str "SYS_ADMIN", .str "NET_ADMIN"])])])]])])]

/-- A Pod with pod-level runAsNonRoot false whose containers inherit it,
override it with true, and restate false respectively: the concrete input
of the C4 witness. -/
def ranrPod : Yaml := .dict [("kind", .str "Pod"),
  ("metadata", .dict [("name", .str "p")]),
  ("spec", .dict [
    ("securityContext", .dict [("runAsNonRoot", .bool false)]),
    ("containers", .list [
      .dict [("name", .str "a")],
      .dict [("name", .str "b"),
        ("securityContext", .dict [("runAsNonRoot", .bool true)])],
      .dict [("name", .str "c"),
        ("securityContext", .dict [("runAsNonRoot", .bool false)])]])])]

/-- A Pod whose spec sets hostNetwork true with one unremarkable container:
the concrete input of the C7 witness. -/
def hostNetworkPod : Yaml := .dict [("kind", .str "Pod"),
  ("metadata", .dict [("name", .str "network-pod"), ("namespace", .str "default")]),
  ("spec", .dict [("hostNetwork", .bool true),
    ("containers", .list [.dict [("name", .str "t"), ("image", .str "nginx")]])])]

/-- A deeply nested changed file and two nested marker directories: the
concrete input of the C5 witness. -/
def deepChangedFile : RepoPath := ["apps", "myapp", "overlays", "prod", "deployment.yaml"]

/-- Marker directories for the C5 witness: both an ancestor and a nearer
ancestor of deepChangedFile contain kustomization.yaml. -/
def markerDirs : List RepoPath := [["apps", "myapp"], ["apps", "myapp", "overlays"]]

/-!
General list helpers used by the theorems below.
-/

theorem countP_flatMap_eq_sum {α β : Type} (p : β → Bool) (f : α → List β) (l : List α) :
    (l.flatMap f).countP p = (l.map fun a => (f a).countP p).sum := by
  induction l with
  | nil => rfl
  | cons a t ih => simp [List.flatMap_cons, List.countP_append, ih]

theorem sum_map_ite_eq_countP {α : Type} (q : α → Bool) (l : List α) :
    (l.map fun a => if q a then 1 else 0).sum = l.countP q := by
  induction l with
  | nil => rfl
  | cons a t ih =>
    by_cases h : q a <;> simp [List.countP_cons, h, ih, Nat.add_comm]

theorem countP_filterMap_ite_pos {α β : Type} (p : β → Bool) (q : α → Bool) (g : α → β)
    (l : List α) (hg : ∀ a, q a = true → p (g a) = true) :
    (l.filterMap fun a => if q a then some (g a) else none).countP p = l.countP q := by
  induction l with
  | nil => rfl
  | cons a t ih =>
    by_cases h : q a
    · simp [List.filterMap_cons, h, List.countP_cons, hg a h, ih]
    · simp [List.filterMap_cons, h, List.countP_cons, ih]

theorem countP_filterMap_ite_neg {α β : Type} (p : β → Bool) (q : α → Bool) (g : α → β)
    (l : List α) (hg : ∀ a, q a = true → p (g a) = false) :
    (l.filterMap fun a => if q a then some (g a) else none).countP p = 0 := by
  induction l with
  | nil => rfl
  | cons a t ih =>
    by_cases h : q a
    · simp [List.filterMap_cons, h, List.countP_cons, hg a h, ih]
    · simp [List.filterMap_cons, h, List.countP_cons, ih]

theorem foldl_eq_init {α β : Type} (f : β → α → β) (l : List α)
    (h : ∀ b, ∀ a ∈ l, f b a = b) : ∀ init, l.foldl f init = init := by
  induction l with
  | nil => intro init; rfl
  | cons a t ih =>
    intro init
    rw [List.foldl_cons, h init a (List.mem_cons_self a t)]
    exact ih (fun b x hx => h b x (List.mem_cons_of_mem _ hx)) init

/-- Every finding the container loop appends carries one of its four check
ids, with the severity hard-coded next to it in the source. -/
theorem container_findings_mem_shape (kind name ns dir : String) (psc c : Yaml)
    (f : SecurityFinding) (hf : f ∈ container_findings kind name ns dir psc c) :
    (f.check = "privileged" ∧ f.severity = "high")
    ∨ (f.check = "allowPrivilegeEscalation" ∧ f.severity = "medium")
    ∨ (f.check = "runAsRoot" ∧ f.severity = "medium")
    ∨ (f.check = "dangerousCapability" ∧ f.severity = "high") := by
  simp only [container_findings] at hf
  rcases List.mem_append.mp hf with hf | hf
  rotate_left
  · obtain ⟨cap, _, hsome⟩ := List.mem_filterMap.mp hf
    split at hsome
    · cases Option.some.inj hsome
      exact Or.inr (Or.inr (Or.inr ⟨rfl, rfl⟩))
    · exact Option.noConfusion hsome
  rcases List.mem_append.mp hf with hf | hf
  rotate_left
  · split at hf
    · simp only [List.mem_singleton] at hf
      subst hf
      exact Or.inr (Or.inr (Or.inl ⟨rfl, rfl⟩))
    · exact absurd hf (List.not_mem_nil f)
  rcases List.mem_append.mp hf with hf | hf
  · split at hf
    · simp only [List.mem_singleton] at hf
      subst hf
      exact Or.inl ⟨rfl, rfl⟩
    · exact absurd hf (List.not_mem_nil f)
  · split at hf
    · split at hf
      · simp only [List.mem_singleton] at hf
        subst hf
        exact Or.inr (Or.inl ⟨rfl, rfl⟩)
      · exact absurd hf (List.not_mem_nil f)
    · exact absurd hf (List.not_mem_nil f)

/-- Every finding check_resource appends carries one of the eight rule ids,
with the severity hard-coded next to it in the source. -/
theorem check_resource_mem_shape (resource : Yaml) (dir : String) (f : SecurityFinding)
    (hf : f ∈ check_resource resource dir) :
    (f.check = "hostNetwork" ∧ f.severity = "high")
    ∨ (f.check = "hostPID" ∧ f.severity = "high")
    ∨ (f.check = "hostIPC" ∧ f.severity = "medium")
    ∨ (f.check = "privileged" ∧ f.severity = "high")
    ∨ (f.check = "allowPrivilegeEscalation" ∧ f.severity = "medium")
    ∨ (f.check = "runAsRoot" ∧ f.severity = "medium")
    ∨ (f.check = "dangerousCapability" ∧ f.severity = "high")
    ∨ (f.check = "hostPath" ∧ f.severity = "high") := by
  simp only [check_resource] at hf
  split at hf
  · exact absurd hf (List.not_mem_nil f)
  rcases List.mem_append.mp hf with hf | hf
  rotate_left
  · obtain ⟨v, _, hsome⟩ := List.mem_filterMap.mp hf
    split at hsome
    · cases Option.some.inj hsome
      exact Or.inr (Or.inr (Or.inr (Or.inr (Or.inr (Or.inr (Or.inr ⟨rfl, rfl⟩))))))
    · exact Option.noConfusion hsome
  rcases List.mem_append.mp hf with hf | hf
  rotate_left
  · obtain ⟨c, _, hfc⟩ := List.mem_flatMap.mp hf
    rcases container_findings_mem_shape _ _ _ _ _ _ f hfc with h | h | h | h
    · exact Or.inr (Or.inr (Or.inr (Or.inl h)))
    · exact Or.inr (Or.inr (Or.inr (Or.inr (Or.inl h))))
    · exact Or.inr (Or.inr (Or.inr (Or.inr (Or.inr (Or.inl h)))))
    · exact Or.inr (Or.inr (Or.inr (Or.inr (Or.inr (Or.inr (Or.inl h))))))
  rcases List.mem_append.mp hf with hf | hf
  rotate_left
  · split at hf
    · simp only [List.mem_singleton] at hf
      subst hf
      exact Or.inr (Or.inr (Or.inl ⟨rfl, rfl⟩))
    · exact absurd hf (List.not_mem_nil f)
  rcases List.mem_append.mp hf with hf | hf
  · split at hf
    · simp only [List.mem_singleton] at hf
      subst hf
      exact Or.inl ⟨rfl, rfl⟩
    · exact absurd hf (List.not_mem_nil f)
  · split at hf
    · simp only [List.mem_singleton] at hf
      subst hf
      exact Or.inr (Or.inl ⟨rfl, rfl⟩)
    · exact absurd hf (List.not_mem_nil f)

theorem countP_ite_singleton {α : Type} (p : α → Bool) (A : Bool) (x : α) :
    (if A then [x] else []).countP p = if p x && A then 1 else 0 := by
  cases A <;> simp [List.countP_cons]

theorem countP_ite_ite_singleton {α : Type} (p : α → Bool) (A B : Bool) (x : α) :
    (if A then (if B then [x] else []) else []).countP p
      = if p x && A && B then 1 else 0 := by
  cases A <;> cases B <;> simp [List.countP_cons]

/-- Counting findings with check id `X` among the findings a filterMap
produces when every produced finding carries the constant check id `Y`. -/
theorem countP_check_filterMap {α : Type} (X Y : String) (q : α → Bool)
    (g : α → SecurityFinding) (l : List α) (hg : ∀ a, (g a).check = Y) :
    (l.filterMap fun a => if q a then some (g a) else none).countP (fun f => f.check == X)
      = if (Y == X) then l.countP q else 0 := by
  by_cases hY : (Y == X) = true
  · rw [if_pos hY]
    exact countP_filterMap_ite_pos (fun f => f.check == X) q g l
      (fun a _ => by simp [hg a, hY])
  · rw [if_neg hY]
    exact countP_filterMap_ite_neg (fun f => f.check == X) q g l
      (fun a _ => by simp [hg a, Bool.eq_false_iff.mpr hY])

/-- How many findings with check id `X` the container loop appends for one
container: one per satisfied per-container rule whose id is `X`, plus one
per dangerous added capability when `X` is the capability rule. -/
theorem container_findings_countP_check (X : String) (kind name ns dir : String)
    (psc c : Yaml) :
    (container_findings kind name ns dir psc c).countP (fun f => f.check == X)
      = (if (("privileged" : String) == X)
            && ((c.getD "securityContext" (.dict [])).pyGet "privileged").truthy then 1 else 0)
        + (if (("allowPrivilegeEscalation" : String) == X)
            && ((c.getD "securityContext" (.dict [])).getD "allowPrivilegeEscalation" (.bool true)).truthy
            && (c.getD "securityContext" (.dict [])).hasKey "allowPrivilegeEscalation" then 1 else 0)
        + (if (("runAsRoot" : String) == X)
            && (run_as_non_root_of psc (c.getD "securityContext" (.dict []))).isFalse then 1 else 0)
        + (if ("dangerousCapability" : String) == X then
            (added_caps_of c).countP (fun cap => DANGEROUS_CAPABILITIES.any (fun d => cap.eqStr d))
          else 0) := by
  simp only [container_findings]
  rw [List.countP_append, List.countP_append, List.countP_append,
      countP_ite_singleton, countP_ite_ite_singleton, countP_ite_singleton,
      countP_check_filterMap X "dangerousCapability"]
  intro a
  rfl

/-- How many findings with check id `X` check_resource appends for a
monitored resource: one per satisfied pod-level rule whose id is `X`, the
per-container contributions, and one per hostPath volume when `X` is the
volume rule. -/
theorem check_resource_countP_check (X : String) (resource : Yaml) (dir : String)
    (hmon : is_monitored resource = true) :
    (check_resource resource dir).countP (fun f => f.check == X)
      = (if (("hostNetwork" : String) == X)
            && ((pod_spec_of resource).pyGet "hostNetwork").truthy then 1 else 0)
        + (if (("hostPID" : String) == X)
            && ((pod_spec_of resource).pyGet "hostPID").truthy then 1 else 0)
        + (if (("hostIPC" : String) == X)
            && ((pod_spec_of resource).pyGet "hostIPC").truthy then 1 else 0)
        + ((containers_of resource).map (fun c =>
            (container_findings (pyStr (resource.getD "kind" (.str "Unknown")))
                (pyStr ((resource.getD "metadata" (.dict [])).getD "name" (.str "unknown")))
                (pyStr ((resource.getD "metadata" (.dict [])).getD "namespace" (.str "default")))
                dir ((pod_spec_of resource).getD "securityContext" (.dict [])) c).countP
                (fun f => f.check == X))).sum
        + (if ("hostPath" : String) == X then
            (volumes_of resource).countP (fun v => v.hasKey "hostPath") else 0) := by
  simp only [check_resource, hmon, Bool.not_true, Bool.false_eq_true, if_false]
  rw [List.countP_append, List.countP_append, List.countP_append, List.countP_append,
      countP_ite_singleton, countP_ite_singleton, countP_ite_singleton,
      countP_flatMap_eq_sum,
      countP_check_filterMap X "hostPath"]
  intro a
  rfl

/-- Specialisation: a container contributes no finding with check id `X`
when `X` is none of the four per-container rule ids. -/
theorem container_findings_countP_zero (X : String) (kind name ns dir : String)
    (psc c : Yaml)
    (h1 : (("privileged" : String) == X) = false)
    (h2 : (("allowPrivilegeEscalation" : String) == X) = false)
    (h3 : (("runAsRoot" : String) == X) = false)
    (h4 : (("dangerousCapability" : String) == X) = false) :
    (container_findings kind name ns dir psc c).countP (fun f => f.check == X) = 0 := by
  rw [container_findings_countP_check, h1, h2, h3, h4]
  simp

/-- In a finding list where every severity is "high" or "medium", the "low"
bucket is empty and the length splits into the two buckets. -/
theorem filter_counts_of_high_medium (l : List SecurityFinding)
    (h : ∀ f ∈ l, f.severity = "high" ∨ f.severity = "medium") :
    (l.filter (fun f => f.severity == "low")).length = 0
    ∧ l.length = (l.filter (fun f => f.severity == "high")).length
        + (l.filter (fun f => f.severity == "medium")).length := by
  induction l with
  | nil => exact ⟨rfl, rfl⟩
  | cons a t ih =>
    obtain ⟨h1, h2⟩ := ih (fun f hf => h f (List.mem_cons_of_mem _ hf))
    rcases h a (List.mem_cons_self a t) with ha | ha <;>
      refine ⟨?_, ?_⟩ <;> simp [List.filter_cons, ha, h1] <;> omega

/-- Claim C1 counterexample: a multi-document stream whose malformed portion
follows a well-formed document does not yield an empty result — the
document parsed before the error is kept. -/
theorem parse_manifests_keeps_earlier_docs :
    parse_manifests [YamlDoc.doc (.dict [("kind", .str "Service")]), YamlDoc.parseError]
      = [Yaml.dict [("kind", .str "Service")]]
    ∧ parse_manifests [YamlDoc.doc (.dict [("kind", .str "Service")]), YamlDoc.parseError]
        ≠ ([] : List Yaml) := by
  refine ⟨rfl, ?_⟩
  intro h
  exact List.cons_ne_nil _ _ h

/-- Claim C1 amended: parse_manifests raises no error (it is a total
function of the document stream) and returns exactly the truthy dict
documents parsed before the malformed point: everything after the error is
dropped, and the result is empty when the error comes first, but well-formed
documents preceding the malformed portion are retained. -/
theorem parse_manifests_stops_at_error (pre post : List YamlDoc)
    (hpre : ∀ e ∈ pre, e ≠ YamlDoc.parseError) :
    parse_manifests (pre ++ YamlDoc.parseError :: post) = parse_manifests pre
    ∧ parse_manifests (YamlDoc.parseError :: post) = ([] : List Yaml) := by
  refine ⟨?_, rfl⟩
  induction pre with
  | nil => rfl
  | cons e rest ih =>
    cases e with
    | parseError => exact absurd rfl (hpre _ (List.mem_cons_self _ _))
    | doc v =>
      simp only [List.cons_append, parse_manifests, List.append_eq]
      rw [ih (fun x hx => hpre x (List.mem_cons_of_mem _ hx))]

/-- Witness for the amended C1 theorem at a concrete three-document stream. -/
theorem parse_manifests_stops_at_error_witness :
    parse_manifests ([YamlDoc.doc (.dict [("a", .int 1)])] ++ YamlDoc.parseError
        :: [YamlDoc.doc (.dict [("b", .int 2)])])
      = parse_manifests [YamlDoc.doc (.dict [("a", .int 1)])]
    ∧ parse_manifests (YamlDoc.parseError :: [YamlDoc.doc (.dict [("b", .int 2)])])
        = ([] : List Yaml) := by
  refine parse_manifests_stops_at_error _ _ ?_
  intro e he
  simp only [List.mem_singleton] at he
  subst he
  intro h
  exact YamlDoc.noConfusion h

/-- Claim C8: the exit code of check_privileges.main is nonzero exactly when
--fail-on-high is configured and a high-severity finding exists; in every
other case, findings included, the exit code is 0. -/
theorem exit_code_nonzero_iff (fail_on_high : Bool) (findings : List SecurityFinding) :
    main_exit_code fail_on_high findings ≠ 0 ↔
      fail_on_high = true ∧ ∃ f ∈ findings, f.severity = "high" := by
  have hiff : (0 < findings.countP (fun f => f.severity == "high")) ↔
      ∃ f ∈ findings, f.severity = "high" := by
    rw [List.countP_pos_iff]
    constructor
    · rintro ⟨f, hf, hp⟩
      exact ⟨f, hf, by simpa using hp⟩
    · rintro ⟨f, hf, hp⟩
      exact ⟨f, hf, by simpa using hp⟩
  cases fail_on_high with
  | false => simp [main_exit_code]
  | true => simp [main_exit_code, hiff]

/-- Witness for the C8 theorem at a concrete finding list. -/
theorem exit_code_nonzero_iff_witness :
    main_exit_code true
      [{ severity := "high", check := "hostNetwork", manifest_dir := "apps/test",
         resource_kind := "Pod", resource_name := "p", «namespace» := "default",
         details := "Pod uses host network namespace" }] ≠ 0 := by
  refine (exit_code_nonzero_iff true _).mpr ⟨rfl, ?_⟩
  exact ⟨_, List.mem_singleton.mpr rfl, rfl⟩

/-- Claim C9: every finding the rule evaluator produces has severity "high"
or "medium", so the JSON report built from evaluator output always has
low_severity 0 and total_findings equal to high_severity plus
medium_severity. -/
theorem report_severity_partition (inputs : List (Yaml × String)) :
    (∀ f ∈ inputs.flatMap (fun rd => check_resource rd.1 rd.2),
        f.severity = "high" ∨ f.severity = "medium")
    ∧ (save_json_report (inputs.flatMap fun rd => check_resource rd.1 rd.2)).low_severity = 0
    ∧ (save_json_report (inputs.flatMap fun rd => check_resource rd.1 rd.2)).total_findings
        = (save_json_report (inputs.flatMap fun rd => check_resource rd.1 rd.2)).high_severity
          + (save_json_report (inputs.flatMap fun rd => check_resource rd.1 rd.2)).medium_severity := by
  have hmem : ∀ f ∈ inputs.flatMap (fun rd => check_resource rd.1 rd.2),
      f.severity = "high" ∨ f.severity = "medium" := by
    intro f hf
    obtain ⟨rd, _, hfr⟩ := List.mem_flatMap.mp hf
    rcases check_resource_mem_shape rd.1 rd.2 f hfr with h|h|h|h|h|h|h|h <;>
      first
      | exact Or.inl h.2
      | exact Or.inr h.2
  obtain ⟨h1, h2⟩ := filter_counts_of_high_medium _ hmem
  exact ⟨hmem, h1, h2⟩

/-- Witness for the C9 theorem at a concrete resource list. -/
theorem report_severity_partition_witness :
    (save_json_report ([(Yaml.dict [("kind", Yaml.str "Pod"),
        ("spec", Yaml.dict [("hostNetwork", Yaml.bool true)])], "apps/test")].flatMap
        fun rd => check_resource rd.1 rd.2)).low_severity = 0 :=
  (report_severity_partition _).2.1

/-- Specialisation of the resource-level count to a rule id that is none of
the container or volume rule ids: only the three pod-level flag rules can
contribute. -/
theorem check_resource_countP_flags (X : String) (resource : Yaml) (dir : String)
    (hmon : is_monitored resource = true)
    (h1 : (("privileged" : String) == X) = false)
    (h2 : (("allowPrivilegeEscalation" : String) == X) = false)
    (h3 : (("runAsRoot" : String) == X) = false)
    (h4 : (("dangerousCapability" : String) == X) = false)
    (h5 : (("hostPath" : String) == X) = false) :
    (check_resource resource dir).countP (fun f => f.check == X)
      = (if (("hostNetwork" : String) == X)
            && ((pod_spec_of resource).pyGet "hostNetwork").truthy then 1 else 0)
        + (if (("hostPID" : String) == X)
            && ((pod_spec_of resource).pyGet "hostPID").truthy then 1 else 0)
        + (if (("hostIPC" : String) == X)
            && ((pod_spec_of resource).pyGet "hostIPC").truthy then 1 else 0) := by
  rw [check_resource_countP_check X resource dir hmon, h5]
  rw [List.sum_eq_zero]
  · simp
  · intro x hx
    obtain ⟨c, hc, rfl⟩ := List.mem_map.mp hx
    exact container_findings_countP_zero X _ _ _ _ _ _ h1 h2 h3 h4

/-- Claim C10: the hostNetwork, hostPID and hostIPC rules test Python
truthiness, not boolean equality with true: for a monitored resource the
corresponding finding is emitted exactly when the pod-spec value is truthy,
and truthiness holds for a non-empty string such as "false" or a nonzero
number, while false, null, 0 and an absent key (which d.get turns into
null) are all falsy. -/
theorem host_flags_truthiness (resource : Yaml) (dir : String)
    (hmon : is_monitored resource = true) :
    ((check_resource resource dir).countP (fun f => f.check == "hostNetwork")
        = if ((pod_spec_of resource).pyGet "hostNetwork").truthy then 1 else 0)
    ∧ ((check_resource resource dir).countP (fun f => f.check == "hostPID")
        = if ((pod_spec_of resource).pyGet "hostPID").truthy then 1 else 0)
    ∧ ((check_resource resource dir).countP (fun f => f.check == "hostIPC")
        = if ((pod_spec_of resource).pyGet "hostIPC").truthy then 1 else 0)
    ∧ Yaml.truthy (.str "false") = true
    ∧ Yaml.truthy (.int 2) = true
    ∧ Yaml.truthy (.bool false) = false
    ∧ Yaml.truthy .null = false
    ∧ Yaml.truthy (.int 0) = false := by
  refine ⟨?_, ?_, ?_, rfl, rfl, rfl, rfl, rfl⟩
  · rw [check_resource_countP_flags "hostNetwork" resource dir hmon
        (by decide) (by decide) (by decide) (by decide) (by decide)]
    simp
  · rw [check_resource_countP_flags "hostPID" resource dir hmon
        (by decide) (by decide) (by decide) (by decide) (by decide)]
    simp
  · rw [check_resource_countP_flags "hostIPC" resource dir hmon
        (by decide) (by decide) (by decide) (by decide) (by decide)]
    simp


/-- Witness for the C10 theorem: on truthyFlagsPod the truthy string "false"
triggers the hostNetwork finding while the falsy 0 triggers no hostPID
finding. -/
theorem host_flags_truthiness_witness :
    is_monitored truthyFlagsPod = true
    ∧ ((check_resource truthyFlagsPod "apps/test").countP
        (fun f => f.check == "hostNetwork")
        = if ((pod_spec_of truthyFlagsPod).pyGet "hostNetwork").truthy then 1 else 0)
    ∧ (check_resource truthyFlagsPod "apps/test").countP
        (fun f => f.check == "hostNetwork") = 1
    ∧ (check_resource truthyFlagsPod "apps/test").countP
        (fun f => f.check == "hostPID") = 0 := by
  refine ⟨rfl, (host_flags_truthiness truthyFlagsPod "apps/test" rfl).1, ?_, ?_⟩
  · decide
  · decide


/-- Claim C2 counterexample: the container's securityContext carries
allowPrivilegeEscalation with a value that is not the boolean true, yet
check_resource emits an allowPrivilegeEscalation finding for it — the rule
tests presence plus Python truthiness, not presence of the value true. -/
theorem allow_priv_escalation_cex :
    ((Yaml.dict [("allowPrivilegeEscalation", Yaml.str "false")]).find
        "allowPrivilegeEscalation" = some (Yaml.str "false"))
    ∧ some (Yaml.str "false") ≠ some (Yaml.bool true)
    ∧ (check_resource apeStringPod "apps/test").countP
        (fun f => f.check == "allowPrivilegeEscalation") = 1 := by
  refine ⟨rfl, ?_, by decide⟩
  intro h
  injection h with h2
  exact Yaml.noConfusion h2

/-- Claim C2 amended: for a monitored resource, a container receives a
medium allowPrivilegeEscalation finding exactly when the key is explicitly
present in its securityContext with a truthy value; an absent key (even
though Kubernetes defaults the field to true) yields no finding, as does a
present falsy value such as the boolean false. -/
theorem allow_priv_escalation_iff (resource : Yaml) (dir : String)
    (hmon : is_monitored resource = true) :
    ((check_resource resource dir).countP (fun f => f.check == "allowPrivilegeEscalation")
      = (containers_of resource).countP (fun c =>
          (c.getD "securityContext" (.dict [])).hasKey "allowPrivilegeEscalation"
            && ((c.getD "securityContext" (.dict [])).getD "allowPrivilegeEscalation"
                (.bool true)).truthy))
    ∧ ∀ f ∈ check_resource resource dir,
        f.check = "allowPrivilegeEscalation" → f.severity = "medium" := by
  constructor
  · have hc : ∀ c ∈ containers_of resource,
        (container_findings (pyStr (resource.getD "kind" (.str "Unknown")))
            (pyStr ((resource.getD "metadata" (.dict [])).getD "name" (.str "unknown")))
            (pyStr ((resource.getD "metadata" (.dict [])).getD "namespace" (.str "default")))
            dir ((pod_spec_of resource).getD "securityContext" (.dict [])) c).countP
          (fun f => f.check == "allowPrivilegeEscalation")
        = if (c.getD "securityContext" (.dict [])).hasKey "allowPrivilegeEscalation"
              && ((c.getD "securityContext" (.dict [])).getD "allowPrivilegeEscalation"
                  (.bool true)).truthy
          then 1 else 0 := by
      intro c _
      rw [container_findings_countP_check]
      simp [Bool.and_comm]
    rw [check_resource_countP_check "allowPrivilegeEscalation" resource dir hmon,
        List.map_congr_left hc, sum_map_ite_eq_countP]
    simp
  · intro f hf hch
    rcases check_resource_mem_shape resource dir f hf with h|h|h|h|h|h|h|h <;>
      first
      | exact h.2
      | exact absurd (h.1.symm.trans hch) (by decide)


/-- Witness for the amended C2 theorem: only the container that explicitly
sets allowPrivilegeEscalation to a truthy value is flagged. -/
theorem allow_priv_escalation_iff_witness :
    is_monitored apeDeployment = true
    ∧ ((check_resource apeDeployment "apps/test").countP
        (fun f => f.check == "allowPrivilegeEscalation")
      = (containers_of apeDeployment).countP (fun c =>
          (c.getD "securityContext" (.dict [])).hasKey "allowPrivilegeEscalation"
            && ((c.getD "securityContext" (.dict [])).getD "allowPrivilegeEscalation"
                (.bool true)).truthy))
    ∧ (check_resource apeDeployment "apps/test").countP
        (fun f => f.check == "allowPrivilegeEscalation") = 1 := by
  refine ⟨rfl, (allow_priv_escalation_iff apeDeployment "apps/test" rfl).1, by decide⟩

/-- Claim C3: for a monitored resource, check_resource emits one high
dangerousCapability finding per capability in a container's
securityContext.capabilities.add list that belongs to the fixed dangerous
set, with regular and init containers treated by the same rule
(containers_of concatenates both lists). -/
theorem dangerous_capabilities_count (resource : Yaml) (dir : String)
    (hmon : is_monitored resource = true) :
    ((check_resource resource dir).countP (fun f => f.check == "dangerousCapability")
      = ((containers_of resource).map (fun c =>
          (added_caps_of c).countP (fun cap =>
            DANGEROUS_CAPABILITIES.any (fun d => cap.eqStr d)))).sum)
    ∧ ∀ f ∈ check_resource resource dir,
        f.check = "dangerousCapability" → f.severity = "high" := by
  constructor
  · have hc : ∀ c ∈ containers_of resource,
        (container_findings (pyStr (resource.getD "kind" (.str "Unknown")))
            (pyStr ((resource.getD "metadata" (.dict [])).getD "name" (.str "unknown")))
            (pyStr ((resource.getD "metadata" (.dict [])).getD "namespace" (.str "default")))
            dir ((pod_spec_of resource).getD "securityContext" (.dict [])) c).countP
          (fun f => f.check == "dangerousCapability")
        = (added_caps_of c).countP (fun cap =>
            DANGEROUS_CAPABILITIES.any (fun d => cap.eqStr d)) := by
      intro c _
      rw [container_findings_countP_check]
      simp
    rw [check_resource_countP_check "dangerousCapability" resource dir hmon,
        List.map_congr_left hc]
    simp
  · intro f hf hch
    rcases check_resource_mem_shape resource dir f hf with h|h|h|h|h|h|h|h <;>
      first
      | exact h.2
      | exact absurd (h.1.symm.trans hch) (by decide)


/-- Witness for the C3 theorem: capPod yields exactly two findings, both
high-severity dangerousCapability findings, one per added capability. -/
theorem dangerous_capabilities_count_witness :
    is_monitored capPod = true
    ∧ ((check_resource capPod "apps/test").countP
        (fun f => f.check == "dangerousCapability")
      = ((containers_of capPod).map (fun c =>
          (added_caps_of c).countP (fun cap =>
            DANGEROUS_CAPABILITIES.any (fun d => cap.eqStr d)))).sum)
    ∧ (check_resource capPod "apps/test").length = 2
    ∧ ∀ f ∈ check_resource capPod "apps/test",
        f.severity = "high" ∧ f.check = "dangerousCapability" := by
  refine ⟨rfl, (dangerous_capabilities_count capPod "apps/test" rfl).1, by decide, by decide⟩

/-- The code's run_as_non_root selection agrees with the spec's description
of the effective runAsNonRoot value: the container securityContext's value
when that key is set to a non-null value, the pod-level value otherwise. -/
theorem effectiveRunAsNonRoot_eq (psc sc : Yaml) :
    effectiveRunAsNonRoot psc sc = run_as_non_root_of psc sc := by
  unfold effectiveRunAsNonRoot run_as_non_root_of Yaml.pyGet
  cases h : sc.find "runAsNonRoot" with
  | none => simp
  | some v => cases v <;> simp

/-- Claim C4: for a monitored resource, a container receives a medium
runAsRoot finding exactly when the effective runAsNonRoot value — the
container securityContext's value when set non-null, else the pod-level
one — is the boolean false; an absent value at both levels or any other
value yields no finding. -/
theorem run_as_root_iff (resource : Yaml) (dir : String)
    (hmon : is_monitored resource = true) :
    ((check_resource resource dir).countP (fun f => f.check == "runAsRoot")
      = (containers_of resource).countP (fun c =>
          (effectiveRunAsNonRoot
            ((pod_spec_of resource).getD "securityContext" (.dict []))
            (c.getD "securityContext" (.dict []))).isFalse))
    ∧ ∀ f ∈ check_resource resource dir,
        f.check = "runAsRoot" → f.severity = "medium" := by
  constructor
  · have hc : ∀ c ∈ containers_of resource,
        (container_findings (pyStr (resource.getD "kind" (.str "Unknown")))
            (pyStr ((resource.getD "metadata" (.dict [])).getD "name" (.str "unknown")))
            (pyStr ((resource.getD "metadata" (.dict [])).getD "namespace" (.str "default")))
            dir ((pod_spec_of resource).getD "securityContext" (.dict [])) c).countP
          (fun f => f.check == "runAsRoot")
        = if (effectiveRunAsNonRoot
              ((pod_spec_of resource).getD "securityContext" (.dict []))
              (c.getD "securityContext" (.dict []))).isFalse
          then 1 else 0 := by
      intro c _
      rw [container_findings_countP_check, effectiveRunAsNonRoot_eq]
      simp
    rw [check_resource_countP_check "runAsRoot" resource dir hmon,
        List.map_congr_left hc, sum_map_ite_eq_countP]
    simp
  · intro f hf hch
    rcases check_resource_mem_shape resource dir f hf with h|h|h|h|h|h|h|h <;>
      first
      | exact h.2
      | exact absurd (h.1.symm.trans hch) (by decide)


/-- Witness for the C4 theorem: the inheriting container and the container
restating false are flagged; the overriding container is not. -/
theorem run_as_root_iff_witness :
    is_monitored ranrPod = true
    ∧ ((check_resource ranrPod "apps/test").countP (fun f => f.check == "runAsRoot")
      = (containers_of ranrPod).countP (fun c =>
          (effectiveRunAsNonRoot
            ((pod_spec_of ranrPod).getD "securityContext" (.dict []))
            (c.getD "securityContext" (.dict []))).isFalse))
    ∧ (check_resource ranrPod "apps/test").countP (fun f => f.check == "runAsRoot") = 2 := by
  refine ⟨rfl, (run_as_root_iff ranrPod "apps/test" rfl).1, by decide⟩

theorem filterMap_ite_none {α β : Type} (q : α → Bool) (g : α → β) (l : List α)
    (h : ∀ a ∈ l, q a = false) :
    (l.filterMap fun a => if q a then some (g a) else none) = [] := by
  rw [List.filterMap_eq_nil_iff]
  intro a ha
  rw [h a ha]
  rfl

/-- Claim C7: a resource of kind Pod that sets hostNetwork to true and has
no other risk factor — falsy hostPID and hostIPC, containers on which the
per-container rules all stay silent, and no volume with a hostPath key —
yields exactly one finding, with severity high and check id hostNetwork. -/
theorem host_network_single_finding (resource : Yaml) (dir : String)
    (hkind : resource.getD "kind" (.str "Unknown") = .str "Pod")
    (hnet : (pod_spec_of resource).pyGet "hostNetwork" = .bool true)
    (hpid : ((pod_spec_of resource).pyGet "hostPID").truthy = false)
    (hipc : ((pod_spec_of resource).pyGet "hostIPC").truthy = false)
    (hcont : ∀ c ∈ containers_of resource,
        container_findings "Pod"
          (pyStr ((resource.getD "metadata" (.dict [])).getD "name" (.str "unknown")))
          (pyStr ((resource.getD "metadata" (.dict [])).getD "namespace" (.str "default")))
          dir ((pod_spec_of resource).getD "securityContext" (.dict [])) c = [])
    (hvol : ∀ v ∈ volumes_of resource, v.hasKey "hostPath" = false) :
    (check_resource resource dir).length = 1
    ∧ ∀ f ∈ check_resource resource dir,
        f.severity = "high" ∧ f.check = "hostNetwork" := by
  have hmon : is_monitored resource = true := by
    unfold is_monitored
    rw [hkind]
    decide
  have hcont2 : ∀ c ∈ containers_of resource,
      container_findings (pyStr (resource.getD "kind" (.str "Unknown")))
        (pyStr ((resource.getD "metadata" (.dict [])).getD "name" (.str "unknown")))
        (pyStr ((resource.getD "metadata" (.dict [])).getD "namespace" (.str "default")))
        dir ((pod_spec_of resource).getD "securityContext" (.dict [])) c = [] := by
    rw [hkind]
    exact hcont
  have hres : check_resource resource dir
      = [{ severity := "high", check := "hostNetwork", manifest_dir := dir,
           resource_kind := pyStr (resource.getD "kind" (.str "Unknown")),
           resource_name :=
             pyStr ((resource.getD "metadata" (.dict [])).getD "name" (.str "unknown")),
           «namespace» :=
             pyStr ((resource.getD "metadata" (.dict [])).getD "namespace" (.str "default")),
           details := "Pod uses host network namespace" }] := by
    simp only [check_resource, hmon, Bool.not_true, Bool.false_eq_true, if_false]
    rw [hnet, hpid, hipc, List.flatMap_eq_nil_iff.mpr hcont2, filterMap_ite_none _ _ _ hvol]
    simp [Yaml.truthy]
  rw [hres]
  refine ⟨rfl, ?_⟩
  intro f hf
  simp only [List.mem_singleton] at hf
  subst hf
  exact ⟨rfl, rfl⟩


/-- Witness for the C7 theorem on hostNetworkPod. -/
theorem host_network_single_finding_witness :
    (check_resource hostNetworkPod "apps/test").length = 1
    ∧ ∀ f ∈ check_resource hostNetworkPod "apps/test",
        f.severity = "high" ∧ f.check = "hostNetwork" := by
  refine host_network_single_finding hostNetworkPod "apps/test" rfl rfl rfl rfl ?_ ?_
  · intro c hc
    rw [show containers_of hostNetworkPod
        = [Yaml.dict [("name", .str "t"), ("image", .str "nginx")]] from rfl] at hc
    simp only [List.mem_singleton] at hc
    subst hc
    rfl
  · intro v hv
    rw [show volumes_of hostNetworkPod = [] from rfl] at hv
    exact absurd hv (List.not_mem_nil v)

/-- The ancestor list satisfies pathlib's recursion: the parents of a
nonempty path are its immediate parent followed by the parents of that
parent — the walk really proceeds from the immediate parent toward the
root. -/
theorem pathParents_cons (p : RepoPath) (hp : p ≠ []) :
    pathParents p = parentDir p :: pathParents (parentDir p) := by
  unfold pathParents parentDir
  have hn : p.length = (p.length - 1).succ :=
    (Nat.succ_pred_eq_of_pos (List.length_pos.mpr hp)).symm
  rw [hn, List.range_succ, List.map_append, List.reverse_append]
  simp only [List.map_cons, List.map_nil, List.reverse_cons, List.reverse_nil,
    List.nil_append, List.cons_append, List.singleton_append]
  rw [List.dropLast_eq_take, List.length_take, Nat.min_eq_left (Nat.sub_le _ _)]
  congr 2
  apply List.map_congr_left
  intro k hk
  rw [List.take_take, Nat.min_eq_left (Nat.le_of_lt (List.mem_range.mp hk))]

/-- Claim C5: for a qualifying changed path the mapper examines the
ancestors from the immediate parent toward the root (current directory
excluded), maps the file to the first examined ancestor containing
kustomization.yaml as a kustomize-managed entry — every nearer ancestor
lacking the marker — and, when no examined ancestor has the marker, to the
file's immediate parent as a raw (non-kustomize) entry. -/
theorem nearest_marker_ancestor (fs : List RepoPath) (path : RepoPath)
    (head : String) (rest : List String) (hpath : path = head :: rest)
    (hhead : head ∈ SCAN_DIRECTORIES) (m : List (RepoPath × ManifestEntry)) :
    (properAncestors path = if (parentDir path).isEmpty then []
        else parentDir path :: properAncestors (parentDir path))
    ∧ (∀ k, findKustomizationDir fs path = some k →
        k ∈ fs
        ∧ (∃ pre post, properAncestors path = pre ++ k :: post ∧ ∀ a ∈ pre, a ∉ fs)
        ∧ affectedStep fs m path = updateAffected m k true (pathToString path))
    ∧ (findKustomizationDir fs path = none →
        (∀ a ∈ properAncestors path, a ∉ fs)
        ∧ affectedStep fs m path = updateAffected m (parentDir path) false (pathToString path)) := by
  have hne : path ≠ [] := by
    rw [hpath]
    exact List.cons_ne_nil _ _
  refine ⟨?_, ?_, ?_⟩
  · unfold properAncestors
    rw [pathParents_cons path hne, List.takeWhile_cons]
    cases hpe : (parentDir path).isEmpty <;> simp [hpe]
  · intro k hk
    obtain ⟨hpk, pre, post, hsplit, hpre⟩ := List.find?_eq_some.mp hk
    refine ⟨of_decide_eq_true hpk, ⟨pre, post, hsplit, ?_⟩, ?_⟩
    · intro a ha
      have h2 := hpre a ha
      simpa using h2
    · subst hpath
      simp [affectedStep, hk, hhead]
  · intro hk
    constructor
    · intro a ha
      have h2 := List.find?_eq_none.mp hk a ha
      simpa using h2
    · subst hpath
      simp [affectedStep, hk, hhead]



/-- Witness for the C5 theorem: the nearest marker ancestor
apps/myapp/overlays wins over the further apps/myapp, and the file maps to
it as a kustomize-managed entry. -/
theorem nearest_marker_ancestor_witness :
    findKustomizationDir markerDirs deepChangedFile = some ["apps", "myapp", "overlays"]
    ∧ (["apps", "myapp", "overlays"] ∈ markerDirs
      ∧ (∃ pre post,
          properAncestors deepChangedFile = pre ++ ["apps", "myapp", "overlays"] :: post
          ∧ ∀ a ∈ pre, a ∉ markerDirs)
      ∧ affectedStep markerDirs [] deepChangedFile
          = updateAffected [] ["apps", "myapp", "overlays"] true
              (pathToString deepChangedFile)) := by
  refine ⟨rfl, ?_⟩
  exact (nearest_marker_ancestor markerDirs deepChangedFile "apps"
    ["myapp", "overlays", "prod", "deployment.yaml"] rfl (by decide) []).2.1
    ["apps", "myapp", "overlays"] rfl

/-- Claim C6: when no changed path has its first component in
SCAN_DIRECTORIES, both directory mappers return an empty mapping — every
such path is dropped without contributing an entry. -/
theorem outside_scan_dirs_empty (fs : List RepoPath) (dirExists : String → Bool)
    (changed_files : List RepoPath)
    (h : ∀ p ∈ changed_files, ∀ d, p.head? = some d → d ∉ SCAN_DIRECTORIES) :
    get_affected_manifests fs changed_files = []
    ∧ get_affected_kustomizations dirExists fs changed_files = [] := by
  constructor
  · unfold get_affected_manifests
    refine foldl_eq_init _ _ ?_ []
    intro b a ha
    cases a with
    | nil => rfl
    | cons d t =>
      have hd : d ∉ SCAN_DIRECTORIES := h _ ha d rfl
      simp [affectedStep, hd]
  · unfold get_affected_kustomizations
    refine foldl_eq_init _ _ ?_ []
    intro b a ha
    cases a with
    | nil => rfl
    | cons d t =>
      have hd : d ∉ SCAN_DIRECTORIES := h _ ha d rfl
      have hany : ((SCAN_DIRECTORIES.filter dirExists).any (fun x => d == x)) = false := by
        rw [List.any_eq_false]
        intro x hx
        intro hbeq
        exact hd (eq_of_beq hbeq ▸ (List.mem_filter.mp hx).1)
      simp [hany]

/-- Witness for the C6 theorem on changed files rooted outside the
allow-list. -/
theorem outside_scan_dirs_empty_witness :
    get_affected_manifests [["apps", "x"]]
        [["README.md"], ["scripts", "helper.sh"], ["docs", "guide.md"]] = []
    ∧ get_affected_kustomizations (fun _ => true) [["apps", "x"]]
        [["README.md"], ["scripts", "helper.sh"], ["docs", "guide.md"]] = [] := by
  refine outside_scan_dirs_empty _ _ _ ?_
  intro p hp d hd
  simp only [List.mem_cons, List.not_mem_nil, or_false] at hp
  rcases hp with rfl | rfl | rfl <;>
    · injection hd with h2
      subst h2
      decide
